import Mathlib

/-!
Verification of the incident-correlation and evidence pipeline of the
smart-tourist-safety backend.  The definitions below are a shallow embedding
of the Python sources:

* `backend/services/alerts_service/app/database.py` (data model),
* `backend/services/alerts_service/app/services/clustering_service.py`
  (`should_create_incident`),
* `backend/services/alerts_service/app/routes/alerts.py` (`create_sos_alert`),
* `backend/services/alerts_service/app/routes/incidents.py`
  (`update_incident`, `generate_efir`),
* `backend/services/alerts_service/app/services/blockchain_service.py`
  (`anchor_evidence`),
* `backend/services/blockchain_service/main.py` (`TransactionRequest`
  validators, `update_tx_confirmed`).

Timestamps are modelled as integers measured in hours (only order and
subtraction of the configured window matter; the configured window is an
`int` in `config.py`).  Float coordinates are modelled
as `Option ℚ`; the great-circle distance `calculate_distance` (a Haversine
computation on floats) is abstracted as an explicit function parameter
`dist`, so every theorem about the clustering decision holds for the actual
float Haversine as for any other distance.  The database is modelled as the
lists of rows of the `alerts` and `incidents` tables; SQLAlchemy commits
that violate the primary-key constraint surface as `DBError.integrityError`
and roll back (the caller keeps the previous state).
-/

deriving instance DecidableEq for Except

namespace TouristSafety

/-- `AlertSource` enum of `database.py`. -/
inductive AlertSource where
  | APP
  | SMS
  | IOT
deriving DecidableEq, Repr

/-- `AlertStatus` enum of `database.py`. -/
inductive AlertStatus where
  | RECEIVED
  | PROCESSED
  | ESCALATED
deriving DecidableEq, Repr

/-- `IncidentStatus` enum of `database.py`. -/
inductive IncidentStatus where
  | RECEIVED
  | ACKNOWLEDGED
  | DISPATCHED
  | RESOLVED
  | CLOSED
deriving DecidableEq, Repr

/-- A row of the `alerts` table (`database.py`).  `created_at` carries the
`default=datetime.utcnow` value, i.e. the receipt instant at insertion. -/
structure Alert where
  alert_id : String
  digital_id : Option String
  tourist_id : Option String
  lat : Option ℚ
  lng : Option ℚ
  source : AlertSource
  media_refs : List String
  status : AlertStatus
  created_at : ℤ
  incident_id : Option String
deriving DecidableEq, Repr

/-- A row of the `incidents` table (`database.py`). -/
structure Incident where
  incident_id : String
  alerts : List String
  priority : Nat
  assigned_unit : Option String
  efir_pointer : Option String
  efir_hash : Option String
  blockchain_tx_id : Option String
  status : IncidentStatus
  created_at : ℤ
  updated_at : ℤ
deriving DecidableEq, Repr

/-- `SOSAlertCreate` request model (`models.py`).  The `timestamp` field is
the caller-supplied capture time. -/
structure SOSAlertCreate where
  alert_id : String
  digital_id : Option String
  tourist_id : Option String
  lat : Option ℚ
  lng : Option ℚ
  timestamp : ℤ
  source : AlertSource
  media_refs : List String
deriving DecidableEq, Repr

/-- The clustering-related fields of `Settings` (`config.py`), with their
declared defaults. -/
structure Settings where
  incident_cluster_threshold : Nat := 3
  incident_cluster_radius_km : ℚ := 2
  incident_cluster_time_window_hours : ℤ := 2
deriving DecidableEq, Repr

/-- Python truthiness of an optional float: `None` and `0.0` are falsy
(`if not alert.lat or not alert.lng` in `clustering_service.py`). -/
def truthy : Option ℚ → Bool
  | none => false
  | some x => decide (x ≠ 0)

/-- The state of the alerts-service database: the rows of the `alerts` and
`incidents` tables, in insertion order. -/
structure DB where
  alerts : List Alert
  incidents : List Incident
deriving DecidableEq, Repr, Inhabited

/-- `SELECT ... WHERE alert_id = id` returning at most one row. -/
def DB.findAlert (db : DB) (id : String) : Option Alert :=
  db.alerts.find? (fun a => a.alert_id == id)

/-- `SELECT ... WHERE incident_id = id` returning at most one row. -/
def DB.findIncident (db : DB) (id : String) : Option Incident :=
  db.incidents.find? (fun i => i.incident_id == id)

/-- Errors surfaced by the embedded handlers. -/
inductive DBError where
  /-- Primary-key violation raised by `db.commit()` (duplicate `alert_id`);
  FastAPI surfaces it as an HTTP 500 and the transaction is rolled back. -/
  | integrityError
deriving DecidableEq, Repr

/-- `db.add(alert); await db.commit()` for a table whose primary key is
`alert_id`: fails when a row with the same key exists, otherwise appends. -/
def DB.insertAlert (db : DB) (a : Alert) : Except DBError DB :=
  match db.findAlert a.alert_id with
  | some _ => .error .integrityError
  | none => .ok { db with alerts := db.alerts ++ [a] }

/-- The `Alert(...)` constructor call of `create_sos_alert`
(`routes/alerts.py` lines 26-35): status `RECEIVED`, `created_at` filled by
the column default with the current instant, `incident_id` unset.  The
request's `timestamp` field is not among the copied attributes. -/
def Alert.fromCreate (d : SOSAlertCreate) (now : ℤ) : Alert :=
  { alert_id := d.alert_id
    digital_id := d.digital_id
    tourist_id := d.tourist_id
    lat := d.lat
    lng := d.lng
    source := d.source
    media_refs := d.media_refs
    status := .RECEIVED
    created_at := now
    incident_id := none }

/-- The candidate query of `should_create_incident`
(`clustering_service.py` lines 36-41): alerts whose `created_at` is within
the trailing window, with `incident_id` NULL and both coordinates non-NULL. -/
def cluster_candidates (s : Settings) (db : DB) (now : ℤ) : List Alert :=
  db.alerts.filter (fun a =>
    decide (now - s.incident_cluster_time_window_hours ≤ a.created_at) &&
    a.incident_id.isNone && a.lat.isSome && a.lng.isSome)

/-- The scan of `should_create_incident` (lines 46-56): every candidate
other than the alert itself whose distance is at most the configured radius,
in scan order. -/
def nearby_ids (s : Settings) (dist : Alert → Alert → ℚ) (db : DB)
    (now : ℤ) (alert : Alert) : List String :=
  ((cluster_candidates s db now).filter (fun c =>
    c.alert_id != alert.alert_id &&
    decide (dist alert c ≤ s.incident_cluster_radius_km))).map
    (fun c => c.alert_id)

/-- `ClusteringService.should_create_incident` (`clustering_service.py`
lines 27-65).  `dist` stands for `calculate_distance` applied to the two
alerts' coordinates. -/
def should_create_incident (s : Settings) (dist : Alert → Alert → ℚ)
    (db : DB) (now : ℤ) (alert : Alert) : Bool × List String :=
  if !truthy alert.lat || !truthy alert.lng then (false, [])
  else
    let nearby := nearby_ids s dist db now alert
    let should := decide (s.incident_cluster_threshold ≤ nearby.length + 1)
    if should then (true, nearby ++ [alert.alert_id]) else (should, nearby)

/-- The incident-creation block of `create_sos_alert` (`routes/alerts.py`
lines 68-91): inserts the new incident row (priority = number of member ids,
status `RECEIVED`) and runs
`UPDATE alerts SET incident_id = ..., status = ESCALATED WHERE alert_id IN members`
— the `WHERE` clause tests only membership of the id list, so the update
applies to every listed alert regardless of its current `incident_id`. -/
def create_incident_with_members (db : DB) (new_id : String)
    (members : List String) (now : ℤ) : DB :=
  { alerts := db.alerts.map (fun a =>
      if members.contains a.alert_id then
        { a with incident_id := some new_id, status := .ESCALATED }
      else a)
    incidents := db.incidents ++ [{
      incident_id := new_id
      alerts := members
      priority := members.length
      assigned_unit := none
      efir_pointer := none
      efir_hash := none
      blockchain_tx_id := none
      status := .RECEIVED
      created_at := now
      updated_at := now }] }

/-- `UPDATE alerts SET status = st WHERE alert_id = id` (the final
`alert.status = AlertStatus.PROCESSED; await db.commit()` of the route). -/
def DB.setAlertStatus (db : DB) (id : String) (st : AlertStatus) : DB :=
  { db with alerts := db.alerts.map (fun a =>
      if a.alert_id == id then { a with status := st } else a) }

/-- The `POST /sos` handler `create_sos_alert` (`routes/alerts.py` lines
17-119).  `now` is the processing instant (`datetime.utcnow`),
`new_incident_id` the `uuid.uuid4()` drawn for a possible incident (assumed
fresh).  The event publication and the ML scoring call have no effect on the
stored state and are omitted.  On success the handler returns the final row
of the triggering alert (the data echoed in `AlertResponse`). -/
def create_sos_alert (s : Settings) (dist : Alert → Alert → ℚ) (db : DB)
    (d : SOSAlertCreate) (now : ℤ) (new_incident_id : String) :
    Except DBError (DB × Alert) :=
  let a := Alert.fromCreate d now
  match db.insertAlert a with
  | .error e => .error e
  | .ok db1 =>
    let decision := should_create_incident s dist db1 now a
    let db2 :=
      if decision.1 then
        create_incident_with_members db1 new_incident_id decision.2 now
      else db1
    let db3 := db2.setAlertStatus d.alert_id .PROCESSED
    match db3.findAlert d.alert_id with
    | some final => .ok (db3, final)
    | none => .ok (db3, a)

/-- `IncidentUpdate` request model (`models.py`): three optional fields. -/
structure IncidentUpdate where
  status : Option IncidentStatus := none
  assigned_unit : Option String := none
  priority : Option Nat := none
deriving DecidableEq, Repr

/-- Errors surfaced by the incident routes. -/
inductive ApiError where
  /-- HTTP 404 when the referenced record does not exist. -/
  | notFound
deriving DecidableEq, Repr

/-- The `PUT /incidents/\x7bincident_id\x7d` handler `update_incident`
(`routes/incidents.py` lines 74-122).  It looks the incident up (404 when
absent), collects the non-`None` fields of the request into `update_dict`
and, when that dictionary is non-empty, applies them with a plain `UPDATE`
(the `onupdate` column default stamps `updated_at` with the current
instant).  There is no check of the current status anywhere on this path. -/
def update_incident (db : DB) (iid : String) (u : IncidentUpdate)
    (now : ℤ) : Except ApiError (DB × Incident) :=
  match db.findIncident iid with
  | none => .error .notFound
  | some inc =>
    let changed := u.status.isSome || u.assigned_unit.isSome || u.priority.isSome
    if changed then
      let inc2 : Incident :=
        { inc with
          status := u.status.getD inc.status
          assigned_unit := match u.assigned_unit with
            | some v => some v
            | none => inc.assigned_unit
          priority := u.priority.getD inc.priority
          updated_at := now }
      let db2 : DB :=
        { db with incidents := db.incidents.map (fun i =>
            if i.incident_id == iid then inc2 else i) }
      .ok (db2, inc2)
    else
      .ok (db, inc)

/-- Outcome of the HTTP round-trip made by
`BlockchainService.anchor_evidence` (`services/blockchain_service.py`):
either a JSON body whose optional `tx_id` field is returned, or any
exception (connection failure, non-2xx status) caught by the handler. -/
inductive NetOutcome where
  | ok (tx_id : Option String)
  | failure
deriving DecidableEq, Repr

/-- `BlockchainService.anchor_evidence` (`services/blockchain_service.py`
lines 9-28).  With `use_fake_blockchain` set it returns the deterministic
fake transaction id without touching the network; otherwise the HTTP call's
outcome `net` is consulted and every exception is caught and turned into
`none`.  The function is total: no path raises. -/
def anchor_evidence (use_fake_blockchain : Bool) (net : NetOutcome)
    (evidence_hash : String) : Option String :=
  if use_fake_blockchain then
    some ("fake_tx_" ++ evidence_hash.take 16)
  else
    match net with
    | .ok tx => tx
    | .failure => none

/-- The tail of the `POST /incidents/\x7bincident_id\x7d/generate-efir`
handler (`routes/incidents.py` lines 147-175) after the PDF has been built
and uploaded: anchor the hash, then commit `efir_pointer`, `efir_hash` and
the (possibly `None`) `blockchain_tx_id` onto the incident row.
`efir_pointer`/`efir_hash` are the values returned by the MinIO upload. -/
def generate_efir_commit (db : DB) (iid : String) (efir_pointer : String)
    (efir_hash : String) (use_fake_blockchain : Bool) (net : NetOutcome) :
    Except ApiError (DB × Option String) :=
  match db.findIncident iid with
  | none => .error .notFound
  | some _ =>
    let tx := anchor_evidence use_fake_blockchain net efir_hash
    let db2 : DB :=
      { db with incidents := db.incidents.map (fun i =>
          if i.incident_id == iid then
            { i with
              efir_pointer := some efir_pointer
              efir_hash := some efir_hash
              blockchain_tx_id := tx }
          else i) }
    .ok (db2, tx)

end TouristSafety

namespace BlockchainBridge

/-!
Embedding of `backend/services/blockchain_service/main.py`: the pydantic
validators of `TransactionRequest` and the confirmation update
`update_tx_confirmed`.
-/

/-- `validate_operation` of `TransactionRequest` (`main.py` lines 51-56). -/
def validate_operation (v : String) : Bool :=
  ["issue_did", "record_incident", "anchor_evidence", "append_audit"].contains v

/-- ASCII hexadecimal digit, any case (what `int(v, 16)` accepts as a
digit). -/
def isHexDigitChar (c : Char) : Bool :=
  c.isDigit || (Char.ofNat 97 ≤ c && c ≤ Char.ofNat 102) ||
    (Char.ofNat 65 ≤ c && c ≤ Char.ofNat 70)

/-- The ASCII whitespace characters CPython's `int` strips from both ends
of its string argument. -/
def pyStripChar (c : Char) : Bool :=
  c == ' ' || c == '\t' || c == '\n' || c == '\r' ||
    c == Char.ofNat 11 || c == Char.ofNat 12

/-- Continuation of a CPython integer-literal digit run for base 16: digits
optionally separated by single underscores, never ending in an underscore. -/
def hexTail (l : List Char) : Bool :=
  match l with
  | [] => true
  | c :: r =>
    if c = '_' then
      match r with
      | [] => false
      | d :: r2 => isHexDigitChar d && hexTail r2
    else
      isHexDigitChar c && hexTail r

/-- Non-empty digit run: leading character must be a digit (a run may not
start with an underscore), the rest follows `hexTail`. -/
def hexRun (l : List Char) : Bool :=
  match l with
  | [] => false
  | c :: r => isHexDigitChar c && hexTail r

/-- What CPython's `int(v, 16)` accepts (restricted to ASCII): optional
surrounding whitespace, an optional single sign, an optional `0x`/`0X`
prefix (optionally followed by one underscore), then a digit run with
single underscores between digits. -/
def pyIntBase16Ok (s : String) : Bool :=
  let l0 := s.toList.dropWhile pyStripChar
  let l1 := (l0.reverse.dropWhile pyStripChar).reverse
  let l2 :=
    match l1 with
    | [] => []
    | c :: r => if c == '+' || c == '-' then r else c :: r
  let l3 :=
    match l2 with
    | c0 :: c1 :: r =>
      if c0 == '0' && (c1 == 'x' || c1 == 'X') then
        match r with
        | '_' :: r2 => r2
        | _ => r
      else l2
    | _ => l2
  hexRun l3

/-- `validate_payload_hash` of `TransactionRequest` (`main.py` lines
58-66): reject empty (`not v`, i.e. zero-length) or non-64-character
strings, then require `int(v, 16)` to parse. -/
def validate_payload_hash (v : String) : Bool :=
  !(v.length == 0 || v.length != 64) && pyIntBase16Ok v

/-- The request body of `POST /transactions` after pydantic validation. -/
structure TransactionRequest where
  op : String
  payload_hash : String
deriving DecidableEq, Repr

/-- Pydantic validation of an incoming `TransactionRequest` body: both
field validators must pass before the route handler (and hence any Fabric
call) runs. -/
def parse_transaction_request (op payload_hash : String) :
    Except String TransactionRequest :=
  if !validate_operation op then
    .error "Operation must be one of the recognized operations"
  else if !validate_payload_hash payload_hash then
    .error "payload_hash must be a 64-character SHA256 hex string"
  else
    .ok { op := op, payload_hash := payload_hash }

/-- The `POST /transactions` pipeline as far as the ledger is concerned:
pydantic validation gates the handler, which then performs exactly one
`fabric_client.submit_transaction` call.  The second component counts the
Fabric submissions made. -/
def submit_endpoint (op payload_hash tx_id : String) :
    Except String String × Nat :=
  match parse_transaction_request op payload_hash with
  | .error e => (.error e, 0)
  | .ok _ => (.ok tx_id, 1)

/-- A row of the `blockchain_tx` table (`main.py` lines 91-100).  The
`raw_response` JSONB column is modelled by the integer-valued keys the code
manipulates (`block_no`). -/
structure BlockchainTxRecord where
  tx_id : String
  op_type : String
  target_id : String
  submitted_at : ℤ
  confirmed_at : Option ℤ
  raw_response : List (String × Int)
deriving DecidableEq, Repr

/-- JSONB concatenation `a || b`: keys of the right operand override. -/
def jsonbConcat (a b : List (String × Int)) : List (String × Int) :=
  a.filter (fun kv => (b.find? (fun kv2 => kv2.1 == kv.1)).isNone) ++ b

/-- `update_tx_confirmed` (`main.py` lines 126-133): a plain
`UPDATE blockchain_tx SET confirmed_at = $1, raw_response = raw_response || \x7b"block_no": n\x7d WHERE tx_id = $3`.
The `WHERE` clause tests only the transaction id; there is no guard on
`confirmed_at` being still NULL, and the statement cannot fail. -/
def update_tx_confirmed (store : List BlockchainTxRecord) (tx_id : String)
    (confirmed_at : ℤ) (block_no : Int) : List BlockchainTxRecord :=
  store.map (fun r =>
    if r.tx_id == tx_id then
      { r with
        confirmed_at := some confirmed_at
        raw_response := jsonbConcat r.raw_response [("block_no", block_no)] }
    else r)

/-- The character class of the specification's words: a lowercase
hexadecimal digit (`0`-`9`, `a`-`f`). -/
def lowerHexChar (c : Char) : Bool :=
  c.isDigit || (Char.ofNat 97 ≤ c && c ≤ Char.ofNat 102)

/-- Written from the spec's words, for comparison with the source
validator: a 64-character lowercase hexadecimal string (SHA-256 format). -/
def spec_lower64_hex (s : String) : Bool :=
  s.length == 64 && s.toList.all lowerHexChar

end BlockchainBridge

namespace TouristSafety

/-!
Concrete scenario data used by counterexamples and witnesses.
-/

/-- The configuration defaults of `config.py`: threshold 3, radius 2 km,
window 2 h. -/
def defaultSettings : Settings := {}

/-- A degenerate distance assigning 0 km to every pair (all alerts at one
spot). -/
def zeroDist : Alert → Alert → ℚ := fun _ _ => 0

/-- An empty database. -/
def emptyDB : DB := ⟨[], []⟩

/-- Alert-submission request `A1` of the end-to-end scenario. -/
def reqA1 : SOSAlertCreate :=
  { alert_id := "A1", digital_id := none, tourist_id := none,
    lat := some 19, lng := some 72, timestamp := 0, source := .APP,
    media_refs := [] }

/-- Alert-submission request `A2` of the end-to-end scenario. -/
def reqA2 : SOSAlertCreate := { reqA1 with alert_id := "A2" }

/-- Alert-submission request `A3` of the end-to-end scenario. -/
def reqA3 : SOSAlertCreate := { reqA1 with alert_id := "A3" }

/-- Ingestion of `A1` into the empty store at instant 0. -/
def runA1 : Except DBError (DB × Alert) :=
  create_sos_alert defaultSettings zeroDist emptyDB reqA1 0 "X1"

/-- The store after `A1`. -/
def dbA1 : DB :=
  match runA1 with
  | .ok p => p.1
  | .error _ => emptyDB

/-- Ingestion of `A2` at instant 0. -/
def runA2 : Except DBError (DB × Alert) :=
  create_sos_alert defaultSettings zeroDist dbA1 reqA2 0 "X2"

/-- The store after `A2`. -/
def dbA2 : DB :=
  match runA2 with
  | .ok p => p.1
  | .error _ => emptyDB

/-- Ingestion of `A3` at instant 0 — the submission that makes three
qualifying alerts and triggers the incident creation with id `X3`. -/
def runA3 : Except DBError (DB × Alert) :=
  create_sos_alert defaultSettings zeroDist dbA2 reqA3 0 "X3"

/-- The store after `A3`. -/
def dbA3 : DB :=
  match runA3 with
  | .ok p => p.1
  | .error _ => emptyDB

/-- The record returned for `A1`. -/
def respA1 : Alert :=
  match runA1 with
  | .ok p => p.2
  | .error _ => Alert.fromCreate reqA1 0

/-- The record returned for `A3`. -/
def respA3 : Alert :=
  match runA3 with
  | .ok p => p.2
  | .error _ => Alert.fromCreate reqA3 0

/-- A submission whose caller-supplied capture timestamp (-100) lies far
outside the clustering window around the receipt instant 100. -/
def reqStale : SOSAlertCreate :=
  { reqA1 with alert_id := "S", timestamp := -100 }

/-- Ingestion of the stale-capture-time request at receipt instant 100. -/
def runStale : Except DBError (DB × Alert) :=
  create_sos_alert defaultSettings zeroDist emptyDB reqStale 100 "XS"

/-- The store after the stale-capture-time ingestion. -/
def dbStale : DB :=
  match runStale with
  | .ok p => p.1
  | .error _ => emptyDB

/-- An alert sitting exactly on the equator: latitude 0.0, longitude
present and nonzero. -/
def zeroLatAlert : Alert :=
  { alert_id := "Z", digital_id := none, tourist_id := none,
    lat := some 0, lng := some 77, source := .APP, media_refs := [],
    status := .RECEIVED, created_at := 0, incident_id := none }

/-- A nearby stored alert with ordinary coordinates. -/
def bystanderAlert (i : String) : Alert :=
  { zeroLatAlert with alert_id := i, lat := some 10 }

/-- A store holding two unescalated alerts within window and radius of
`zeroLatAlert`. -/
def dbTwoBystanders : DB := ⟨[bystanderAlert "B1", bystanderAlert "B2"], []⟩

/-- A store where the zero-latitude alert `Z` is a stored, unescalated row
next to one ordinary alert. -/
def dbWithZero : DB := ⟨[zeroLatAlert, bystanderAlert "B1"], []⟩

/-- A submission with ordinary nonzero coordinates, arriving while `Z` and
`B1` sit in the store. -/
def reqN : SOSAlertCreate :=
  { reqA1 with alert_id := "N", lat := some 10, lng := some 77 }

/-- Ingestion of `N` against the store holding the zero-latitude alert:
the decision that pulls `Z` into a cluster. -/
def runJoin : Except DBError (DB × Alert) :=
  create_sos_alert defaultSettings zeroDist dbWithZero reqN 0 "XZ"

/-- The store after `N`'s ingestion. -/
def dbJoin : DB :=
  match runJoin with
  | .ok p => p.1
  | .error _ => emptyDB

/-- An alert that is already a member of incident `inc-0`. -/
def claimedAlert : Alert :=
  { bystanderAlert "A1" with incident_id := some "inc-0", status := .ESCALATED }

/-- A store where `A1` already belongs to incident `inc-0` while `A2`, `A3`
are unescalated: the state an overlapping clustering decision would see at
commit time. -/
def dbOverlap : DB := ⟨[claimedAlert, bystanderAlert "A2", bystanderAlert "A3"], []⟩

/-- The store state right after the first commit of `create_sos_alert`
(the insert of the new alert row), when that commit succeeds. -/
def afterInsert (db : DB) (d : SOSAlertCreate) (now : ℤ) : DB :=
  { db with alerts := db.alerts ++ [Alert.fromCreate d now] }

/-- The clustering decision `create_sos_alert` obtains for request `d`
against the post-insert store. -/
def ingestDecision (s : Settings) (dist : Alert → Alert → ℚ) (db : DB)
    (d : SOSAlertCreate) (now : ℤ) : Bool × List String :=
  should_create_incident s dist (afterInsert db d now) now
    (Alert.fromCreate d now)

/-- A closed incident. -/
def closedIncident : Incident :=
  { incident_id := "I9", alerts := ["A1"], priority := 1,
    assigned_unit := none, efir_pointer := none, efir_hash := none,
    blockchain_tx_id := none, status := .CLOSED, created_at := 0,
    updated_at := 0 }

/-- A store holding only the closed incident. -/
def dbClosed : DB := ⟨[], [closedIncident]⟩

end TouristSafety

namespace BlockchainBridge

/-- A ledger transaction already confirmed at instant 10 in block 1. -/
def confirmedTx : BlockchainTxRecord :=
  { tx_id := "T1", op_type := "anchor_evidence", target_id := "I1",
    submitted_at := 0, confirmed_at := some 10,
    raw_response := [("block_no", 1)] }

/-- 64 uppercase `A` characters: not lowercase hex, yet hex for
`int(v, 16)`. -/
def upper64 : String := String.mk (List.replicate 64 'A')

/-- 64 lowercase `a` characters: a lowercase SHA-256-shaped string. -/
def lower64 : String := String.mk (List.replicate 64 'a')

end BlockchainBridge

namespace TouristSafety

/-- Projection of the constructed alert record. -/
theorem fromCreate_alert_id (d : SOSAlertCreate) (now : ℤ) :
    (Alert.fromCreate d now).alert_id = d.alert_id := rfl

/-- `find?` by alert id commutes with a map that preserves alert ids. -/
theorem find?_map_alertIdPres (f : Alert → Alert)
    (hf : ∀ a, (f a).alert_id = a.alert_id) (l : List Alert) (id : String) :
    (l.map f).find? (fun a => a.alert_id == id) =
      (l.find? (fun a => a.alert_id == id)).map f := by
  induction l with
  | nil => rfl
  | cons a t ih =>
    by_cases hb : (a.alert_id == id) = true
    · simp [List.find?_cons, hf, hb]
    · simp only [Bool.not_eq_true] at hb
      simp [List.find?_cons, hf, hb, ih]

/-- Looking an alert up after the status write of the handler's last step. -/
theorem findAlert_setStatus (db : DB) (id : String) (st : AlertStatus)
    (id2 : String) :
    (db.setAlertStatus id st).findAlert id2 =
      (db.findAlert id2).map (fun a =>
        if a.alert_id == id then { a with status := st } else a) := by
  unfold DB.setAlertStatus DB.findAlert
  exact find?_map_alertIdPres _ (fun a => by split <;> rfl) _ _

/-- Looking an alert up after the incident-creation commit. -/
theorem findAlert_createIncident (db : DB) (nid : String)
    (m : List String) (now : ℤ) (id2 : String) :
    (create_incident_with_members db nid m now).findAlert id2 =
      (db.findAlert id2).map (fun a =>
        if m.contains a.alert_id then
          { a with incident_id := some nid, status := .ESCALATED }
        else a) := by
  unfold create_incident_with_members DB.findAlert
  exact find?_map_alertIdPres _ (fun a => by split <;> rfl) _ _

/-- After a successful insert the new row is found under its identifier. -/
theorem findAlert_afterInsert (db : DB) (d : SOSAlertCreate) (now : ℤ)
    (h : db.findAlert d.alert_id = none) :
    (afterInsert db d now).findAlert d.alert_id =
      some (Alert.fromCreate d now) := by
  unfold afterInsert DB.findAlert at *
  rw [List.find?_append, h]
  simp [List.find?, fromCreate_alert_id]

/-- When the clustering decision is positive, the member list it returns
contains the new alert's identifier (it is appended last). -/
theorem should_snd_contains (s : Settings) (dist : Alert → Alert → ℚ)
    (db : DB) (now : ℤ) (alert : Alert)
    (h : (should_create_incident s dist db now alert).1 = true) :
    (should_create_incident s dist db now alert).2.contains alert.alert_id
      = true := by
  unfold should_create_incident at h ⊢
  by_cases hg : (!truthy alert.lat || !truthy alert.lng) = true
  · rw [if_pos hg] at h
    exact absurd h (by simp)
  · rw [if_neg hg] at h ⊢
    dsimp only at h ⊢
    by_cases hd : decide (s.incident_cluster_threshold ≤
        (nearby_ids s dist db now alert).length + 1) = true
    · rw [if_pos hd]
      simp
    · rw [if_neg hd] at h
      exact absurd h (by simpa using hd)

/-- A repeated submission of an already-stored alert identifier makes the
insert commit fail with the primary-key violation. -/
theorem create_sos_alert_dup (s : Settings) (dist : Alert → Alert → ℚ)
    (db : DB) (d : SOSAlertCreate) (now : ℤ) (nid : String)
    (hfind : (db.findAlert d.alert_id).isSome = true) :
    create_sos_alert s dist db d now nid = .error .integrityError := by
  obtain ⟨x, hx⟩ := Option.isSome_iff_exists.mp hfind
  unfold create_sos_alert DB.insertAlert
  dsimp only
  rw [show db.findAlert (Alert.fromCreate d now).alert_id = some x from hx]

/-- Evaluation of `create_sos_alert` on a fresh identifier when the
clustering decision is positive: the incident commit runs, then the final
status write; the returned record is the inserted alert with the new
`incident_id` and final status `PROCESSED`. -/
theorem create_ok_true (s : Settings) (dist : Alert → Alert → ℚ) (db : DB)
    (d : SOSAlertCreate) (now : ℤ) (nid : String)
    (hfind : db.findAlert d.alert_id = none)
    (hdec : (ingestDecision s dist db d now).1 = true) :
    create_sos_alert s dist db d now nid = .ok
      ((create_incident_with_members (afterInsert db d now) nid
          (ingestDecision s dist db d now).2 now).setAlertStatus d.alert_id
            .PROCESSED,
       { Alert.fromCreate d now with
          incident_id := some nid
          status := .PROCESSED }) := by
  have hfa := findAlert_afterInsert db d now hfind
  have hcont : (ingestDecision s dist db d now).2.contains d.alert_id
      = true :=
    should_snd_contains s dist (afterInsert db d now) now
      (Alert.fromCreate d now) hdec
  have h2 : (create_incident_with_members (afterInsert db d now) nid
      (ingestDecision s dist db d now).2 now).findAlert d.alert_id =
      some { Alert.fromCreate d now with
              incident_id := some nid
              status := .ESCALATED } := by
    rw [findAlert_createIncident, hfa, Option.map_some']
    dsimp only
    rw [fromCreate_alert_id, if_pos hcont]
  have h3 : ((create_incident_with_members (afterInsert db d now) nid
      (ingestDecision s dist db d now).2 now).setAlertStatus d.alert_id
        .PROCESSED).findAlert d.alert_id =
      some { Alert.fromCreate d now with
              incident_id := some nid
              status := .PROCESSED } := by
    rw [findAlert_setStatus, h2, Option.map_some']
    dsimp only
    rw [fromCreate_alert_id, if_pos (beq_self_eq_true d.alert_id)]
  have hins : db.insertAlert (Alert.fromCreate d now) =
      .ok (afterInsert db d now) := by
    unfold DB.insertAlert
    rw [show db.findAlert (Alert.fromCreate d now).alert_id = none from hfind]
    rfl
  unfold create_sos_alert
  dsimp only
  rw [hins]
  dsimp only
  rw [show should_create_incident s dist (afterInsert db d now) now
      (Alert.fromCreate d now) = ingestDecision s dist db d now from rfl]
  rw [if_pos hdec]
  rw [h3]

/-- Evaluation of `create_sos_alert` on a fresh identifier when the
clustering decision is negative: only the insert and the final status
write happen. -/
theorem create_ok_false (s : Settings) (dist : Alert → Alert → ℚ) (db : DB)
    (d : SOSAlertCreate) (now : ℤ) (nid : String)
    (hfind : db.findAlert d.alert_id = none)
    (hdec : (ingestDecision s dist db d now).1 = false) :
    create_sos_alert s dist db d now nid = .ok
      ((afterInsert db d now).setAlertStatus d.alert_id .PROCESSED,
       { Alert.fromCreate d now with status := .PROCESSED }) := by
  have hfa := findAlert_afterInsert db d now hfind
  have h3 : ((afterInsert db d now).setAlertStatus d.alert_id
        .PROCESSED).findAlert d.alert_id =
      some { Alert.fromCreate d now with status := .PROCESSED } := by
    rw [findAlert_setStatus, hfa, Option.map_some']
    dsimp only
    rw [fromCreate_alert_id, if_pos (beq_self_eq_true d.alert_id)]
  have hins : db.insertAlert (Alert.fromCreate d now) =
      .ok (afterInsert db d now) := by
    unfold DB.insertAlert
    rw [show db.findAlert (Alert.fromCreate d now).alert_id = none from hfind]
    rfl
  unfold create_sos_alert
  dsimp only
  rw [hins]
  dsimp only
  rw [show should_create_incident s dist (afterInsert db d now) now
      (Alert.fromCreate d now) = ingestDecision s dist db d now from rfl]
  rw [if_neg (by simp [hdec])]
  rw [h3]

/-- Characterization of every successful run of `create_sos_alert`: the
identifier was fresh, and the resulting store and returned record are the
ones computed from the clustering decision. -/
theorem create_ok_spec (s : Settings) (dist : Alert → Alert → ℚ) (db : DB)
    (d : SOSAlertCreate) (now : ℤ) (nid : String) (db2 : DB) (r : Alert)
    (h : create_sos_alert s dist db d now nid = .ok (db2, r)) :
    db.findAlert d.alert_id = none ∧
    db2 = (if (ingestDecision s dist db d now).1 then
            create_incident_with_members (afterInsert db d now) nid
              (ingestDecision s dist db d now).2 now
          else afterInsert db d now).setAlertStatus d.alert_id .PROCESSED ∧
    r = (if (ingestDecision s dist db d now).1 then
          { Alert.fromCreate d now with
              incident_id := some nid
              status := .PROCESSED }
        else { Alert.fromCreate d now with status := .PROCESSED }) := by
  have hfind : db.findAlert d.alert_id = none := by
    cases hf : db.findAlert d.alert_id with
    | none => rfl
    | some x =>
      rw [create_sos_alert_dup s dist db d now nid (by rw [hf]; rfl)] at h
      exact absurd h (by simp)
  refine ⟨hfind, ?_⟩
  cases hdec : (ingestDecision s dist db d now).1 with
  | true =>
    rw [create_ok_true s dist db d now nid hfind hdec] at h
    injection h with h1
    injection h1 with h2 h3
    exact ⟨h2.symm, h3.symm⟩
  | false =>
    rw [create_ok_false s dist db d now nid hfind hdec] at h
    injection h with h1
    injection h1 with h2 h3
    exact ⟨h2.symm, h3.symm⟩

/-- The status write keeps the alert list's shape. -/
theorem setAlertStatus_alerts (db : DB) (id : String) (st : AlertStatus) :
    (DB.setAlertStatus db id st).alerts = db.alerts.map (fun a =>
      if a.alert_id == id then { a with status := st } else a) := rfl

/-- The incident commit maps the alert rows. -/
theorem createIncident_alerts (db : DB) (nid : String) (m : List String)
    (now : ℤ) :
    (create_incident_with_members db nid m now).alerts =
      db.alerts.map (fun a =>
        if m.contains a.alert_id then
          { a with incident_id := some nid, status := .ESCALATED }
        else a) := rfl

/-- The insert appends the new row. -/
theorem afterInsert_alerts (db : DB) (d : SOSAlertCreate) (now : ℤ) :
    (afterInsert db d now).alerts =
      db.alerts ++ [Alert.fromCreate d now] := rfl

/-- The status write leaves the incident rows alone. -/
theorem setAlertStatus_incidents (db : DB) (id : String)
    (st : AlertStatus) :
    (DB.setAlertStatus db id st).incidents = db.incidents := rfl

/-- The incident commit appends exactly the new incident row. -/
theorem createIncident_incidents (db : DB) (nid : String)
    (m : List String) (now : ℤ) :
    (create_incident_with_members db nid m now).incidents =
      db.incidents ++ [{
        incident_id := nid
        alerts := m
        priority := m.length
        assigned_unit := none
        efir_pointer := none
        efir_hash := none
        blockchain_tx_id := none
        status := .RECEIVED
        created_at := now
        updated_at := now }] := rfl

/-- The insert leaves the incident rows alone. -/
theorem afterInsert_incidents (db : DB) (d : SOSAlertCreate) (now : ℤ) :
    (afterInsert db d now).incidents = db.incidents := rfl

/-- `countP` by alert id is unchanged by an id-preserving map. -/
theorem countP_map_alertIdPres (f : Alert → Alert)
    (hf : ∀ a, (f a).alert_id = a.alert_id) (l : List Alert) (id : String) :
    (l.map f).countP (fun x => x.alert_id == id) =
      l.countP (fun x => x.alert_id == id) := by
  rw [List.countP_map]
  congr 1
  funext a
  simp [Function.comp, hf]

/-- C1 (amended): ingestion is not idempotent in the alert identifier.
After a successful submission the store holds exactly one record with that
identifier, and any second submission of the same identifier fails with the
duplicate-primary-key error (surfaced as an HTTP 500), rather than
returning the first record as a no-op. -/
theorem duplicate_submission_is_rejected (s : Settings)
    (dist : Alert → Alert → ℚ) (db : DB) (d : SOSAlertCreate) (now : ℤ)
    (nid : String) (db2 : DB) (r : Alert)
    (h : create_sos_alert s dist db d now nid = .ok (db2, r))
    (d2 : SOSAlertCreate) (now2 : ℤ) (nid2 : String)
    (hid : d2.alert_id = d.alert_id) :
    create_sos_alert s dist db2 d2 now2 nid2 = .error .integrityError ∧
    db2.alerts.countP (fun x => x.alert_id == d.alert_id) = 1 := by
  obtain ⟨hfind, hdb2, hr⟩ := create_ok_spec s dist db d now nid db2 r h
  have hbase : (db.alerts ++ [Alert.fromCreate d now]).countP
      (fun x => x.alert_id == d.alert_id) = 1 := by
    rw [List.countP_append]
    have h0 : db.alerts.countP (fun x => x.alert_id == d.alert_id) = 0 := by
      rw [List.countP_eq_zero]
      intro a ha
      have hfind2 : db.alerts.find? (fun a => a.alert_id == d.alert_id) =
        none := hfind
      exact List.find?_eq_none.mp hfind2 a ha
    rw [h0]
    simp [List.countP_cons, fromCreate_alert_id]
  have hcount : db2.alerts.countP (fun x => x.alert_id == d.alert_id) = 1 := by
    rw [hdb2]
    by_cases hdec : (ingestDecision s dist db d now).1 = true
    · rw [if_pos hdec, setAlertStatus_alerts, createIncident_alerts,
        afterInsert_alerts]
      rw [countP_map_alertIdPres _ (fun a => by split <;> rfl),
        countP_map_alertIdPres _ (fun a => by split <;> rfl)]
      exact hbase
    · rw [if_neg hdec, setAlertStatus_alerts, afterInsert_alerts]
      rw [countP_map_alertIdPres _ (fun a => by split <;> rfl)]
      exact hbase
  refine ⟨?_, hcount⟩
  apply create_sos_alert_dup
  rw [hid]
  show (db2.alerts.find? (fun a => a.alert_id == d.alert_id)).isSome = true
  refine List.find?_isSome.mpr ?_
  refine List.countP_pos_iff.mp ?_
  rw [hcount]
  norm_num

/-- Witness for `duplicate_submission_is_rejected`: re-submitting `A1`
after its successful ingestion. -/
theorem duplicate_submission_is_rejected_witness :
    create_sos_alert defaultSettings zeroDist dbA1 reqA1 1 "X9" =
      .error .integrityError ∧
    dbA1.alerts.countP (fun x => x.alert_id == reqA1.alert_id) = 1 :=
  duplicate_submission_is_rejected defaultSettings zeroDist emptyDB reqA1 0
    "X1" dbA1 respA1 (by decide) reqA1 1 "X9" (by decide)

/-- C1 counterexample: the first submission of `A1` succeeds, and the
second submission of the same identifier returns the duplicate-key error —
not the first record's data as a no-op. -/
theorem idempotent_ingestion_counterexample :
    runA1 = .ok (dbA1, respA1) ∧
    create_sos_alert defaultSettings zeroDist dbA1 reqA1 1 "X9" =
      .error .integrityError := by
  decide

/-- The handler never reads the request's `timestamp` field: the run is
invariant under changing it. -/
theorem create_timestamp_irrelevant (s : Settings)
    (dist : Alert → Alert → ℚ) (db : DB) (d : SOSAlertCreate) (now : ℤ)
    (nid : String) (t : ℤ) :
    create_sos_alert s dist db { d with timestamp := t } now nid =
      create_sos_alert s dist db d now nid := by
  cases d
  rfl

/-- C7 (amended): clustering-window membership is decided by the receipt
instant, not the caller-supplied capture timestamp: the request's
`timestamp` field is discarded (the run is invariant under changing it),
the stored record's `created_at` is the processing instant, and the
candidate window filter compares that stored `created_at` against
`now - window`. -/
theorem capture_timestamp_discarded (s : Settings)
    (dist : Alert → Alert → ℚ) (db : DB) (d : SOSAlertCreate) (now : ℤ)
    (nid : String) (db2 : DB) (r : Alert)
    (h : create_sos_alert s dist db d now nid = .ok (db2, r)) :
    r.created_at = now ∧
    (∀ t, create_sos_alert s dist db { d with timestamp := t } now nid =
      .ok (db2, r)) ∧
    (∀ c, c ∈ cluster_candidates s db2 now ↔
      (c ∈ db2.alerts ∧
        now - s.incident_cluster_time_window_hours ≤ c.created_at ∧
        c.incident_id = none ∧ c.lat.isSome = true ∧ c.lng.isSome = true)) := by
  obtain ⟨hfind, hdb2, hr⟩ := create_ok_spec s dist db d now nid db2 r h
  refine ⟨?_, ?_, ?_⟩
  · rw [hr]
    by_cases hdec : (ingestDecision s dist db d now).1 = true
    · rw [if_pos hdec]
      rfl
    · rw [if_neg hdec]
      rfl
  · intro t
    rw [create_timestamp_irrelevant]
    exact h
  · intro c
    unfold cluster_candidates
    simp [List.mem_filter, Option.isNone_iff_eq_none, and_assoc]

/-- Witness for `capture_timestamp_discarded`: the ingestion of `A1`. -/
theorem capture_timestamp_discarded_witness :
    respA1.created_at = 0 ∧
    (∀ t, create_sos_alert defaultSettings zeroDist emptyDB
      { reqA1 with timestamp := t } 0 "X1" = .ok (dbA1, respA1)) ∧
    (∀ c, c ∈ cluster_candidates defaultSettings dbA1 0 ↔
      (c ∈ dbA1.alerts ∧
        0 - defaultSettings.incident_cluster_time_window_hours ≤
          c.created_at ∧
        c.incident_id = none ∧ c.lat.isSome = true ∧
        c.lng.isSome = true)) :=
  capture_timestamp_discarded defaultSettings zeroDist emptyDB reqA1 0 "X1"
    dbA1 respA1 (by decide)

/-- C7 counterexample: a request whose capture timestamp is -100, received
at instant 100 with a 2-hour window.  The stored record's `created_at` is
the receipt instant 100 (not the supplied timestamp), and the alert is
selected as a clustering candidate at instant 100 although its capture
timestamp lies far outside the trailing window. -/
theorem capture_timestamp_counterexample :
    reqStale.timestamp = -100 ∧
    (dbStale.findAlert "S").map Alert.created_at = some 100 ∧
    cluster_candidates defaultSettings dbStale 100 =
      [{ Alert.fromCreate reqStale 100 with status := .PROCESSED }] ∧
    ¬(100 - defaultSettings.incident_cluster_time_window_hours ≤
      reqStale.timestamp) := by
  decide

/-- C4 (amended): after an ingestion that triggers incident creation,
exactly one new incident exists; its member list is the clustering
decision's member set (which contains the triggering alert's identifier),
its priority equals the member count, and its status is `received`.  Every
stored member alert carries the new incident's identifier; every member
other than the triggering alert ends with status `escalated`, while the
triggering alert itself — although escalated by the commit — ends with
status `processed` because the handler's final step overwrites its status. -/
theorem incident_creation_outcome (s : Settings)
    (dist : Alert → Alert → ℚ) (db : DB) (d : SOSAlertCreate) (now : ℤ)
    (nid : String) (db2 : DB) (r : Alert)
    (h : create_sos_alert s dist db d now nid = .ok (db2, r))
    (htrig : (ingestDecision s dist db d now).1 = true) :
    db2.incidents = db.incidents ++ [{
      incident_id := nid
      alerts := (ingestDecision s dist db d now).2
      priority := (ingestDecision s dist db d now).2.length
      assigned_unit := none
      efir_pointer := none
      efir_hash := none
      blockchain_tx_id := none
      status := .RECEIVED
      created_at := now
      updated_at := now }] ∧
    (ingestDecision s dist db d now).2.contains d.alert_id = true ∧
    r.alert_id = d.alert_id ∧ r.status = .PROCESSED ∧
    r.incident_id = some nid ∧
    (∀ b, b ∈ db2.alerts →
      (ingestDecision s dist db d now).2.contains b.alert_id = true →
      b.incident_id = some nid ∧
      (¬b.alert_id = d.alert_id → b.status = .ESCALATED)) := by
  obtain ⟨hfind, hdb2, hr⟩ := create_ok_spec s dist db d now nid db2 r h
  rw [if_pos htrig] at hdb2
  rw [if_pos htrig] at hr
  refine ⟨?_, ?_, ?_, ?_, ?_, ?_⟩
  · rw [hdb2, setAlertStatus_incidents, createIncident_incidents,
      afterInsert_incidents]
  · exact should_snd_contains s dist (afterInsert db d now) now
      (Alert.fromCreate d now) htrig
  · rw [hr]
    rfl
  · rw [hr]
  · rw [hr]
  · intro b hb hmem
    rw [hdb2, setAlertStatus_alerts, createIncident_alerts,
      afterInsert_alerts] at hb
    obtain ⟨c, hc, hbc⟩ := List.mem_map.mp hb
    obtain ⟨e, _, hce⟩ := List.mem_map.mp hc
    subst hbc
    subst hce
    by_cases hesc : (ingestDecision s dist db d now).2.contains e.alert_id
      = true
    · rw [if_pos hesc] at hmem ⊢
      by_cases hset : e.alert_id = d.alert_id
      · have hcond : (({ e with
            incident_id := some nid
            status := AlertStatus.ESCALATED } : Alert).alert_id ==
              d.alert_id) = true := by
          simp [hset]
        rw [if_pos hcond]
        exact ⟨rfl, fun hne => (hne hset).elim⟩
      · have hcond : (({ e with
            incident_id := some nid
            status := AlertStatus.ESCALATED } : Alert).alert_id ==
              d.alert_id) = false := by
          simp [hset]
        rw [if_neg (by simp [hcond])]
        exact ⟨rfl, fun _ => rfl⟩
    · rw [if_neg hesc] at hmem
      rw [show (if (e.alert_id == d.alert_id) = true then
          { e with status := AlertStatus.PROCESSED } else e).alert_id =
          e.alert_id from by split <;> rfl] at hmem
      exact absurd hmem hesc

/-- Witness for `incident_creation_outcome`: the third submission of the
end-to-end scenario, which creates incident `X3`. -/
theorem incident_creation_outcome_witness :
    dbA3.incidents = dbA2.incidents ++ [{
      incident_id := "X3"
      alerts := (ingestDecision defaultSettings zeroDist dbA2 reqA3 0).2
      priority := (ingestDecision defaultSettings zeroDist dbA2 reqA3 0).2.length
      assigned_unit := none
      efir_pointer := none
      efir_hash := none
      blockchain_tx_id := none
      status := .RECEIVED
      created_at := 0
      updated_at := 0 }] ∧
    (ingestDecision defaultSettings zeroDist dbA2 reqA3 0).2.contains
      reqA3.alert_id = true ∧
    respA3.alert_id = reqA3.alert_id ∧ respA3.status = .PROCESSED ∧
    respA3.incident_id = some "X3" ∧
    (∀ b, b ∈ dbA3.alerts →
      (ingestDecision defaultSettings zeroDist dbA2 reqA3 0).2.contains
        b.alert_id = true →
      b.incident_id = some "X3" ∧
      (¬b.alert_id = reqA3.alert_id → b.status = .ESCALATED)) :=
  incident_creation_outcome defaultSettings zeroDist dbA2 reqA3 0 "X3" dbA3
    respA3 (by decide) (by decide)

/-- C4 counterexample: in the end-to-end scenario `A1`, `A2`, `A3`, after
the triggering third submission the single incident's member set is
`A1, A2, A3`, yet the triggering alert `A3` ends with status `processed`
(its `incident_id` is set), not `escalated` as claimed. -/
theorem triggering_alert_escalated_counterexample :
    dbA3.incidents.map Incident.alerts = [["A1", "A2", "A3"]] ∧
    (dbA3.findAlert "A3").map Alert.status = some .PROCESSED ∧
    (dbA3.findAlert "A3").map Alert.incident_id = some (some "X3") ∧
    AlertStatus.PROCESSED ≠ .ESCALATED := by
  decide

/-- C9 counterexample: the zero-latitude alert `Z` (latitude exactly 0.0,
longitude 77) is stored and unescalated when `N` (nonzero coordinates) is
ingested.  `Z` passes the candidate query (its coordinates are non-NULL),
is counted as near, becomes a member of the new incident and is escalated
into it — so a zero-coordinate alert does join a cluster, contradicting
the claim's "never triggers or joins". -/
theorem zero_coordinate_joins_counterexample :
    zeroLatAlert.lat = some 0 ∧ zeroLatAlert.lng.isSome = true ∧
    (dbWithZero.findAlert "Z").map Alert.incident_id = some none ∧
    dbJoin.incidents.map Incident.alerts = [["Z", "B1", "N"]] ∧
    (dbJoin.findAlert "Z").map Alert.incident_id = some (some "XZ") ∧
    (dbJoin.findAlert "Z").map Alert.status = some .ESCALATED := by
  decide

/-- C9 (amended): a coordinate equal to 0.0 suppresses only the alert's
own correlation decision — `should_create_incident` returns `(False, [])`
for it, so it never triggers a cluster of its own.  But a zero coordinate
is not treated like a missing one for candidacy: the candidate query tests
only that the coordinates are non-NULL, so every stored unescalated
in-window alert with both coordinates present — zero-valued or not — is
selected as a candidate, while an alert with a NULL coordinate never is;
and a candidate distinct from the deciding alert whose distance is within
the radius is included in the member set whenever the decision fires, so a
stored zero-coordinate alert can join another alert's cluster. -/
theorem zero_coordinate_guard_not_candidacy (s : Settings)
    (dist : Alert → Alert → ℚ) (db : DB) (now : ℤ) (alert : Alert)
    (h : (alert.lat = some 0 ∧ alert.lng.isSome = true) ∨
         (alert.lng = some 0 ∧ alert.lat.isSome = true)) :
    should_create_incident s dist db now alert = (false, []) ∧
    (∀ b ∈ db.alerts, b.lat.isSome = true → b.lng.isSome = true →
      b.incident_id = none →
      now - s.incident_cluster_time_window_hours ≤ b.created_at →
      b ∈ cluster_candidates s db now) ∧
    (∀ b ∈ db.alerts, b.lat = none ∨ b.lng = none →
      b ∉ cluster_candidates s db now) ∧
    (∀ a2 : Alert, truthy a2.lat = true → truthy a2.lng = true →
      ∀ b ∈ cluster_candidates s db now,
        (b.alert_id == a2.alert_id) = false →
        dist a2 b ≤ s.incident_cluster_radius_km →
        (should_create_incident s dist db now a2).1 = true →
        b.alert_id ∈ (should_create_incident s dist db now a2).2) := by
  refine ⟨?_, ?_, ?_, ?_⟩
  · unfold should_create_incident
    rcases h with ⟨h1, _⟩ | ⟨h1, _⟩ <;> simp [truthy, h1]
  · intro b hb h1 h2 h3 h4
    unfold cluster_candidates
    exact List.mem_filter.mpr ⟨hb, by simp [h1, h2, h3, h4]⟩
  · intro b _ hmiss hmem
    unfold cluster_candidates at hmem
    have hpred := (List.mem_filter.mp hmem).2
    rcases hmiss with h1 | h1 <;> simp [h1] at hpred
  · intro a2 h1 h2 b hbc hne hdist htrue
    have hguard : ¬((!truthy a2.lat || !truthy a2.lng) = true) := by
      rw [h1, h2]
      simp
    unfold should_create_incident at htrue ⊢
    rw [if_neg hguard] at htrue ⊢
    dsimp only at htrue ⊢
    by_cases hd : decide (s.incident_cluster_threshold ≤
        (nearby_ids s dist db now a2).length + 1) = true
    · rw [if_pos hd]
      show b.alert_id ∈ nearby_ids s dist db now a2 ++ [a2.alert_id]
      refine List.mem_append_left _ ?_
      unfold nearby_ids
      refine List.mem_map.mpr ⟨b, ?_, rfl⟩
      refine List.mem_filter.mpr ⟨hbc, ?_⟩
      simp [bne, hne, hdist]
    · rw [if_neg hd] at htrue
      exact absurd htrue (by simpa using hd)

/-- Witness for `zero_coordinate_guard_not_candidacy`: the zero-latitude
alert `Z` stored next to `B1`. -/
theorem zero_coordinate_guard_not_candidacy_witness :
    should_create_incident defaultSettings zeroDist dbWithZero 0
      zeroLatAlert = (false, []) ∧
    (∀ b ∈ dbWithZero.alerts, b.lat.isSome = true → b.lng.isSome = true →
      b.incident_id = none →
      0 - defaultSettings.incident_cluster_time_window_hours ≤
        b.created_at →
      b ∈ cluster_candidates defaultSettings dbWithZero 0) ∧
    (∀ b ∈ dbWithZero.alerts, b.lat = none ∨ b.lng = none →
      b ∉ cluster_candidates defaultSettings dbWithZero 0) ∧
    (∀ a2 : Alert, truthy a2.lat = true → truthy a2.lng = true →
      ∀ b ∈ cluster_candidates defaultSettings dbWithZero 0,
        (b.alert_id == a2.alert_id) = false →
        zeroDist a2 b ≤ defaultSettings.incident_cluster_radius_km →
        (should_create_incident defaultSettings zeroDist dbWithZero 0
          a2).1 = true →
        b.alert_id ∈ (should_create_incident defaultSettings zeroDist
          dbWithZero 0 a2).2) :=
  zero_coordinate_guard_not_candidacy defaultSettings zeroDist dbWithZero 0
    zeroLatAlert (Or.inl ⟨rfl, rfl⟩)

/-- C3 counterexample: an alert with both coordinates present but latitude
exactly 0.0.  Its near-candidate count (2) plus one meets the default
threshold 3, so the claim says `shouldGroup = true`, yet
`should_create_incident` returns `(false, [])`. -/
theorem clustering_both_coordinates_counterexample :
    zeroLatAlert.lat.isSome = true ∧ zeroLatAlert.lng.isSome = true ∧
    defaultSettings.incident_cluster_threshold ≤
      (nearby_ids defaultSettings zeroDist dbTwoBystanders 0
        zeroLatAlert).length + 1 ∧
    should_create_incident defaultSettings zeroDist dbTwoBystanders 0
      zeroLatAlert = (false, []) := by
  decide

/-- C3 (amended): for every new alert whose two coordinates are present and
nonzero (the truthiness guard returns `(False, [])` when either coordinate
equals 0.0), `shouldGroup` is true iff the number of
candidates in the window whose distance from the new alert is at most the
configured radius (boundary inclusive), plus one for the new alert itself,
meets or exceeds the configured threshold; and when true, the returned
member identifiers are exactly the near candidates' identifiers followed by
the new alert's identifier. -/
theorem clustering_threshold_spec (s : Settings) (dist : Alert → Alert → ℚ)
    (db : DB) (now : ℤ) (alert : Alert)
    (h1 : truthy alert.lat = true) (h2 : truthy alert.lng = true) :
    ((should_create_incident s dist db now alert).1 = true ↔
      s.incident_cluster_threshold ≤
        (cluster_candidates s db now).countP (fun c =>
          c.alert_id != alert.alert_id &&
          decide (dist alert c ≤ s.incident_cluster_radius_km)) + 1) ∧
    ((should_create_incident s dist db now alert).1 = true →
      (should_create_incident s dist db now alert).2 =
        nearby_ids s dist db now alert ++ [alert.alert_id]) := by
  have hcount : (nearby_ids s dist db now alert).length =
      (cluster_candidates s db now).countP (fun c =>
        c.alert_id != alert.alert_id &&
        decide (dist alert c ≤ s.incident_cluster_radius_km)) := by
    simp [nearby_ids, List.countP_eq_length_filter]
  unfold should_create_incident
  rw [h1, h2]
  rw [← hcount]
  by_cases hdec :
      s.incident_cluster_threshold ≤ (nearby_ids s dist db now alert).length + 1
  · simp [hdec]
  · simp [hdec]

/-- Witness for `clustering_threshold_spec`: a third alert at the
bystanders' spot groups with them under the default settings. -/
theorem clustering_threshold_spec_witness :
    truthy (bystanderAlert "N").lat = true ∧
    truthy (bystanderAlert "N").lng = true ∧
    (((should_create_incident defaultSettings zeroDist dbTwoBystanders 0
        (bystanderAlert "N")).1 = true ↔
      defaultSettings.incident_cluster_threshold ≤
        (cluster_candidates defaultSettings dbTwoBystanders 0).countP (fun c =>
          c.alert_id != (bystanderAlert "N").alert_id &&
          decide (zeroDist (bystanderAlert "N") c ≤
            defaultSettings.incident_cluster_radius_km)) + 1) ∧
    ((should_create_incident defaultSettings zeroDist dbTwoBystanders 0
        (bystanderAlert "N")).1 = true →
      (should_create_incident defaultSettings zeroDist dbTwoBystanders 0
        (bystanderAlert "N")).2 =
        nearby_ids defaultSettings zeroDist dbTwoBystanders 0
          (bystanderAlert "N") ++ [(bystanderAlert "N").alert_id])) :=
  ⟨by decide, by decide,
    clustering_threshold_spec defaultSettings zeroDist dbTwoBystanders 0
      (bystanderAlert "N") (by decide) (by decide)⟩

/-- C2 counterexample: alert `A1` already belongs to incident `inc-0` in
the store, yet committing a proposed member set containing it reassigns its
`incident_id` to the new incident and keeps it in the new incident's member
list — it is not excluded at commit time. -/
theorem commit_exclusion_counterexample :
    (dbOverlap.findAlert "A1").map Alert.incident_id = some (some "inc-0") ∧
    ((create_incident_with_members dbOverlap "inc-new" ["A1", "A2", "A3"]
      5).findAlert "A1").map Alert.incident_id = some (some "inc-new") ∧
    (create_incident_with_members dbOverlap "inc-new" ["A1", "A2", "A3"]
      5).incidents.map Incident.alerts = [["A1", "A2", "A3"]] := by
  decide

/-- C2 (amended): at the incident-creation commit, every stored alert whose
identifier is in the proposed member set — including one whose
`incident_id` is already non-null at commit time — is unconditionally
overwritten with the new incident's identifier and status `escalated`
(last writer wins), and the new incident keeps the full proposed member
list with priority equal to its length; no exclusion or priority
recomputation takes place. -/
theorem commit_reassigns_overlapping_members (db : DB) (nid : String)
    (members : List String) (now : ℤ) (a : Alert)
    (ha : a ∈ db.alerts) (hm : members.contains a.alert_id = true) :
    ({ a with incident_id := some nid, status := .ESCALATED } ∈
      (create_incident_with_members db nid members now).alerts) ∧
    (create_incident_with_members db nid members now).incidents =
      db.incidents ++ [{
        incident_id := nid
        alerts := members
        priority := members.length
        assigned_unit := none
        efir_pointer := none
        efir_hash := none
        blockchain_tx_id := none
        status := .RECEIVED
        created_at := now
        updated_at := now }] := by
  constructor
  · have h2 := List.mem_map_of_mem (fun b : Alert =>
      if members.contains b.alert_id then
        { b with incident_id := some nid, status := AlertStatus.ESCALATED }
      else b) ha
    dsimp only at h2
    rw [if_pos hm] at h2
    exact h2
  · rfl

/-- Witness for `commit_reassigns_overlapping_members`: the committed
overlap scenario with already-claimed alert `A1`. -/
theorem commit_reassigns_overlapping_members_witness :
    ({ claimedAlert with
        incident_id := some "inc-new"
        status := AlertStatus.ESCALATED } ∈
      (create_incident_with_members dbOverlap "inc-new" ["A1", "A2", "A3"]
        5).alerts) ∧
    (create_incident_with_members dbOverlap "inc-new" ["A1", "A2", "A3"]
      5).incidents =
      dbOverlap.incidents ++ [{
        incident_id := "inc-new"
        alerts := ["A1", "A2", "A3"]
        priority := ["A1", "A2", "A3"].length
        assigned_unit := none
        efir_pointer := none
        efir_hash := none
        blockchain_tx_id := none
        status := .RECEIVED
        created_at := 5
        updated_at := 5 }] :=
  commit_reassigns_overlapping_members dbOverlap "inc-new"
    ["A1", "A2", "A3"] 5 claimedAlert (by decide) (by decide)

/-- C6 counterexample: an `UpdateIncident` call against a `closed` incident
succeeds and changes its priority — no `Conflict` is raised and the fields
do not stay unchanged. -/
theorem closed_incident_immutable_counterexample :
    closedIncident.status = .CLOSED ∧
    update_incident dbClosed "I9" { priority := some 99 } 7 =
      .ok (⟨[], [{ closedIncident with priority := 99, updated_at := 7 }]⟩,
        { closedIncident with priority := 99, updated_at := 7 }) := by
  decide

/-- C6 (amended): `update_incident` never checks the current status: for
every stored incident — in particular one whose status is `closed` — the
call succeeds and the requested field values take effect. -/
theorem update_incident_ignores_closed_status (db : DB) (iid : String)
    (u : IncidentUpdate) (now : ℤ) (inc : Incident)
    (h : db.findIncident iid = some inc) :
    ∃ db2 inc2, update_incident db iid u now = .ok (db2, inc2) ∧
      inc2.status = u.status.getD inc.status ∧
      inc2.priority = u.priority.getD inc.priority ∧
      inc2.alerts = inc.alerts := by
  unfold update_incident
  rw [h]
  dsimp only
  by_cases hc :
      (u.status.isSome || u.assigned_unit.isSome || u.priority.isSome) = true
  · rw [if_pos hc]
    exact ⟨_, _, rfl, rfl, rfl, rfl⟩
  · rw [if_neg hc]
    have hs : u.status = none := by
      cases hv : u.status with
      | none => rfl
      | some v => exact absurd (by simp [hv]) hc
    have hp : u.priority = none := by
      cases hv : u.priority with
      | none => rfl
      | some v => exact absurd (by simp [hv]) hc
    exact ⟨db, inc, rfl, by rw [hs]; rfl, by rw [hp]; rfl, rfl⟩

/-- Witness for `update_incident_ignores_closed_status`: updating the
priority of the closed incident `I9` succeeds. -/
theorem update_incident_ignores_closed_status_witness :
    ∃ db2 inc2,
      update_incident dbClosed "I9" { priority := some 99 } 7 =
        .ok (db2, inc2) ∧
      inc2.status = Option.getD none closedIncident.status ∧
      inc2.priority = Option.getD (some 99) closedIncident.priority ∧
      inc2.alerts = closedIncident.alerts :=
  update_incident_ignores_closed_status dbClosed "I9"
    { priority := some 99 } 7 closedIncident (by decide)

/-- C10: with the fake-blockchain flag set, `anchor_evidence`
deterministically returns `fake_tx_` followed by the first 16 characters of
the evidence hash, independent of any network outcome; with the flag unset
and the HTTP call failing, the caught exception yields `none`, and the
evidence-generation flow commits the incident with a null
`blockchain_tx_id` while persisting the evidence pointer and hash. -/
theorem anchor_evidence_total_behavior (db : DB) (iid : String)
    (p hsh : String) (inc : Incident)
    (hfind : db.findIncident iid = some inc) :
    (∀ n1 n2 : NetOutcome,
      anchor_evidence true n1 hsh = some ("fake_tx_" ++ hsh.take 16) ∧
      anchor_evidence true n1 hsh = anchor_evidence true n2 hsh) ∧
    anchor_evidence false .failure hsh = none ∧
    generate_efir_commit db iid p hsh false .failure =
      .ok ({ db with incidents := db.incidents.map (fun i =>
          if i.incident_id == iid then
            { i with
                efir_pointer := some p
                efir_hash := some hsh
                blockchain_tx_id := none }
          else i) }, none) := by
  refine ⟨fun n1 n2 => ⟨rfl, rfl⟩, rfl, ?_⟩
  unfold generate_efir_commit
  rw [hfind]
  rfl

/-- Witness for `anchor_evidence_total_behavior`: the closed-incident store
with incident `I9`. -/
theorem anchor_evidence_total_behavior_witness :
    (∀ n1 n2 : NetOutcome,
      anchor_evidence true n1 "h123" = some ("fake_tx_" ++ "h123".take 16) ∧
      anchor_evidence true n1 "h123" = anchor_evidence true n2 "h123") ∧
    anchor_evidence false .failure "h123" = none ∧
    generate_efir_commit dbClosed "I9" "ptr" "h123" false .failure =
      .ok ({ dbClosed with incidents := dbClosed.incidents.map (fun i =>
          if i.incident_id == "I9" then
            { i with
                efir_pointer := some "ptr"
                efir_hash := some "h123"
                blockchain_tx_id := none }
          else i) }, none) :=
  anchor_evidence_total_behavior dbClosed "I9" "ptr" "h123" closedIncident
    (by decide)

end TouristSafety

namespace BlockchainBridge

/-- C5 counterexample: transaction `T1` is already confirmed at instant 10
in block 1; a second confirmation call succeeds silently and overwrites the
confirmation timestamp with 20 and the block reference with 2. -/
theorem write_once_confirmation_counterexample :
    confirmedTx.confirmed_at = some 10 ∧
    update_tx_confirmed [confirmedTx] "T1" 20 2 =
      [{ confirmedTx with
          confirmed_at := some 20
          raw_response := [("block_no", 2)] }] := by
  decide

/-- C5 (amended): `update_tx_confirmed` is an unconditional update: for
every stored transaction matching the identifier — already confirmed or
not — the call cannot fail and replaces the confirmation timestamp and the
`block_no` entry of the raw response with the new values. -/
theorem confirmation_overwrites (store : List BlockchainTxRecord)
    (tx : String) (t : ℤ) (b : Int) (r : BlockchainTxRecord)
    (hr : r ∈ store) (hid : r.tx_id = tx) :
    { r with
        confirmed_at := some t
        raw_response := jsonbConcat r.raw_response [("block_no", b)] } ∈
      update_tx_confirmed store tx t b := by
  have h2 := List.mem_map_of_mem (fun q : BlockchainTxRecord =>
    if q.tx_id == tx then
      { q with
        confirmed_at := some t
        raw_response := jsonbConcat q.raw_response [("block_no", b)] }
    else q) hr
  dsimp only at h2
  rw [if_pos (by rw [hid]; exact beq_self_eq_true tx)] at h2
  exact h2

/-- Witness for `confirmation_overwrites`: re-confirming the
already-confirmed transaction `T1`. -/
theorem confirmation_overwrites_witness :
    { confirmedTx with
        confirmed_at := some 20
        raw_response := jsonbConcat confirmedTx.raw_response
          [("block_no", 2)] } ∈
      update_tx_confirmed [confirmedTx] "T1" 20 2 :=
  confirmation_overwrites [confirmedTx] "T1" 20 2 confirmedTx (by decide)
    (by decide)

end BlockchainBridge

namespace BlockchainBridge

/-- A lowercase hexadecimal digit is a hexadecimal digit. -/
theorem isHexDigitChar_of_lower (c : Char) (h : lowerHexChar c = true) :
    isHexDigitChar c = true := by
  unfold lowerHexChar at h
  unfold isHexDigitChar
  simp only [Bool.or_eq_true] at h ⊢
  tauto

/-- A lowercase hexadecimal digit is not stripped as whitespace. -/
theorem not_strip_of_lower (c : Char) (h : lowerHexChar c = true) :
    pyStripChar c = false := by
  by_contra hw
  rw [Bool.not_eq_false] at hw
  unfold pyStripChar at hw
  simp only [Bool.or_eq_true, beq_iff_eq] at hw
  rcases hw with ((((h1 | h1) | h1) | h1) | h1) | h1 <;> subst h1 <;>
    exact absurd h (by decide)

/-- A lowercase hexadecimal digit is not a sign character. -/
theorem not_sign_of_lower (c : Char) (h : lowerHexChar c = true) :
    (c == '+' || c == '-') = false := by
  by_contra hw
  rw [Bool.not_eq_false] at hw
  simp only [Bool.or_eq_true, beq_iff_eq] at hw
  rcases hw with h1 | h1 <;> subst h1 <;> exact absurd h (by decide)

/-- A lowercase hexadecimal digit is not a base prefix letter. -/
theorem not_x_of_lower (c : Char) (h : lowerHexChar c = true) :
    (c == 'x' || c == 'X') = false := by
  by_contra hw
  rw [Bool.not_eq_false] at hw
  simp only [Bool.or_eq_true, beq_iff_eq] at hw
  rcases hw with h1 | h1 <;> subst h1 <;> exact absurd h (by decide)

/-- A lowercase hexadecimal digit is not an underscore. -/
theorem ne_underscore_of_lower (c : Char) (h : lowerHexChar c = true) :
    ¬c = '_' := by
  intro h1
  subst h1
  exact absurd h (by decide)

/-- `dropWhile` is the identity when no element satisfies the predicate. -/
theorem dropWhile_eq_self_of_not (p : Char → Bool) (l : List Char)
    (h : ∀ c ∈ l, p c = false) : l.dropWhile p = l := by
  cases l with
  | nil => rfl
  | cons c r =>
    rw [List.dropWhile_cons, h c (List.mem_cons_self c r)]
    simp

/-- A run of lowercase hexadecimal digits satisfies `hexTail`. -/
theorem hexTail_of_lower (l : List Char)
    (h : ∀ c ∈ l, lowerHexChar c = true) : hexTail l = true := by
  induction l with
  | nil => rfl
  | cons c r ih =>
    have hc := h c (List.mem_cons_self c r)
    unfold hexTail
    rw [if_neg (ne_underscore_of_lower c hc), isHexDigitChar_of_lower c hc]
    simpa using ih (fun x hx => h x (List.mem_cons_of_mem c hx))

/-- A non-empty run of lowercase hexadecimal digits is a valid digit run. -/
theorem hexRun_of_lower (l : List Char)
    (h : ∀ c ∈ l, lowerHexChar c = true) (hne : l ≠ []) :
    hexRun l = true := by
  cases l with
  | nil => exact absurd rfl hne
  | cons c r =>
    show (isHexDigitChar c && hexTail r) = true
    rw [isHexDigitChar_of_lower c (h c (List.mem_cons_self c r))]
    simpa using hexTail_of_lower r
      (fun x hx => h x (List.mem_cons_of_mem c hx))

/-- Every non-empty all-lowercase-hexadecimal string is accepted by the
`int(v, 16)` parse. -/
theorem pyIntBase16Ok_of_lower (s : String)
    (hall : ∀ c ∈ s.toList, lowerHexChar c = true)
    (hne : s.toList ≠ []) : pyIntBase16Ok s = true := by
  unfold pyIntBase16Ok
  dsimp only
  rw [dropWhile_eq_self_of_not pyStripChar s.toList
    (fun c hc => not_strip_of_lower c (hall c hc))]
  rw [dropWhile_eq_self_of_not pyStripChar s.toList.reverse
    (fun c hc => not_strip_of_lower c (hall c (List.mem_reverse.mp hc)))]
  rw [List.reverse_reverse]
  cases hl : s.toList with
  | nil => exact absurd hl hne
  | cons c r =>
    have hall2 : ∀ x ∈ c :: r, lowerHexChar x = true := hl ▸ hall
    have hc := hall2 c (List.mem_cons_self c r)
    dsimp only
    rw [if_neg (by simp [not_sign_of_lower c hc])]
    cases r with
    | nil =>
      dsimp only
      exact hexRun_of_lower [c] hall2 (by simp)
    | cons c1 rr =>
      have hc1 := hall2 c1 (List.mem_cons_of_mem c (List.mem_cons_self c1 rr))
      dsimp only
      rw [if_neg (by simp [not_x_of_lower c1 hc1])]
      exact hexRun_of_lower (c :: c1 :: rr) hall2 (by simp)

/-- C8 counterexample: 64 uppercase `A` characters are accepted by the
payload-hash validator although the string is not lowercase hexadecimal,
so "accepts exactly the 64-character lowercase hex strings" fails. -/
theorem lowercase_hex_only_counterexample :
    validate_payload_hash upper64 = true ∧
    spec_lower64_hex upper64 = false := by
  decide

/-- C8 (amended): the payload-hash validator accepts every 64-character
lowercase hexadecimal string, but not only those: it accepts any
64-character string that Python's `int(v, 16)` parses (uppercase or
mixed-case hex, and sign/prefix/underscore forms of total length 64).  The
operation kind must be one of the four recognized operations.  A request
failing either validator is rejected at request parsing with an error and
zero Fabric submissions — no ledger contact. -/
theorem submit_validation_behavior (sh op ph txid : String)
    (h1 : spec_lower64_hex sh = true)
    (h2 : validate_operation op = false ∨ validate_payload_hash ph = false) :
    validate_payload_hash sh = true ∧
    (submit_endpoint op ph txid).2 = 0 ∧
    (∃ e, (submit_endpoint op ph txid).1 = .error e) := by
  have hv : validate_payload_hash sh = true := by
    unfold spec_lower64_hex at h1
    simp only [Bool.and_eq_true, beq_iff_eq, List.all_eq_true] at h1
    obtain ⟨hlen, hallb⟩ := h1
    have hlen2 : sh.toList.length = 64 := hlen
    unfold validate_payload_hash
    rw [pyIntBase16Ok_of_lower sh hallb
      (by intro he; rw [he] at hlen2; exact absurd hlen2 (by decide))]
    have hlen3 : sh.length = 64 := hlen
    rw [hlen3]
    rfl
  have hrej : (submit_endpoint op ph txid).2 = 0 ∧
      (∃ e, (submit_endpoint op ph txid).1 = .error e) := by
    unfold submit_endpoint parse_transaction_request
    rcases h2 with h2 | h2
    · rw [h2]
      exact ⟨rfl, _, rfl⟩
    · by_cases hop : validate_operation op = true
      · rw [hop, h2]
        exact ⟨rfl, _, rfl⟩
      · rw [Bool.not_eq_true] at hop
        rw [hop]
        exact ⟨rfl, _, rfl⟩
  exact ⟨hv, hrej.1, hrej.2⟩

/-- Witness for `submit_validation_behavior`: 64 lowercase `a` characters
pass the hash validator, and a request with an unrecognized operation is
rejected without any Fabric submission. -/
theorem submit_validation_behavior_witness :
    validate_payload_hash lower64 = true ∧
    (submit_endpoint "bad_operation" upper64 "T").2 = 0 ∧
    (∃ e, (submit_endpoint "bad_operation" upper64 "T").1 = .error e) :=
  submit_validation_behavior lower64 "bad_operation" upper64 "T"
    (by decide) (Or.inl (by decide))

end BlockchainBridge
